import Mathlib

/-!
Shallow embedding of arch/arm64/kernel/sdei.c: the SDEI (firmware-delegated
event) dispatch and stack-management subsystem.

Machine `unsigned long` / `u64` values are modelled as `Nat`, reduced
`% 2 ^ 64` wherever the C code performs arithmetic that can wrap.
Per-CPU variables are modelled as functions `Nat → Option Nat` from a cpu
index to the pointer value (`none` is the C `NULL`).  The set of possible
cpus (`for_each_possible_cpu`) is a `List Nat`.

External collaborators whose code is not part of this excerpt
(`sdei_event_handler`, `sdei_api_event_context`, the sysregs, `nmi_enter`/
`nmi_exit`/`in_nmi`, `is_hyp_mode_available`/`is_kernel_in_hyp_mode`,
`arch_alloc_vmap_stack`) are modelled as environment parameters, following
the spec's description of their interfaces.
-/

namespace Sdei

/-- Modulus of the machine word: `unsigned long` on arm64 is 64 bits wide. -/
def U64 : Nat := 2 ^ 64

/-- Modelled from the spec: the saved-state bit layout used by the
dispatcher (the constants come from the architecture headers
`asm/ptrace.h`, which are not part of the excerpt).  `PSR_MODE_MASK`
selects the mode field of the saved `pstate`. -/
def PSR_MODE_MASK : Nat := 0x0000000f

/-- Modelled from the spec: the bit of the saved `pstate` that marks a
32-bit (compatibility) execution state. -/
def PSR_MODE32_BIT : Nat := 0x00000010

/-- Modelled from the spec: the saved-state IRQ-mask bit; set means
interrupts were masked in the interrupted context. -/
def PSR_I_BIT : Nat := 0x00000080

/-- The interrupted-context snapshot `struct pt_regs`: the general-purpose
registers (indexed `0..30`) and the saved processor state `pstate`. -/
structure PtRegs where
  regs : Nat → Nat
  pstate : Nat

/-- Modelled from the spec: `interrupts_enabled(regs)` from
`asm/ptrace.h` — true iff the saved IRQ-mask bit is clear. -/
def interrupts_enabled (regs : PtRegs) : Bool :=
  regs.pstate &&& PSR_I_BIT == 0

/-- The three-way dispatch disposition of the return-value contract:
`handled` is the sentinel "resume the interrupted context", `failed` the
sentinel "not serviced", and `redirect a` any other value, which firmware
treats as a literal resume address. -/
inductive Disposition where
  | handled
  | failed
  | redirect (addr : Nat)
deriving DecidableEq

/- ------------------------------------------------------------------ -/
/- Stack arena: _free_sdei_stack / free_sdei_stacks /
   _init_sdei_stack / init_sdei_stacks                                 -/
/- ------------------------------------------------------------------ -/

/-- The two per-CPU stack pointers `sdei_stack_normal_ptr` and
`sdei_stack_critical_ptr`, each a map from cpu index to the allocated
region's base address (`none` = `NULL`). -/
structure Arena where
  sdei_stack_normal_ptr : Nat → Option Nat
  sdei_stack_critical_ptr : Nat → Option Nat

/-- `_free_sdei_stack`: if the cpu's pointer is non-NULL, clear it (and
`vfree` the region); a NULL pointer is left untouched. -/
def _free_sdei_stack (ptr : Nat → Option Nat) (cpu : Nat) : Nat → Option Nat :=
  match ptr cpu with
  | some _ => fun c => if c = cpu then none else ptr c
  | none => ptr

/-- `free_sdei_stacks`: for each possible cpu, free the normal then the
critical stack. -/
def free_sdei_stacks (cpus : List Nat) (st : Arena) : Arena :=
  match cpus with
  | [] => st
  | cpu :: rest =>
      free_sdei_stacks rest
        { sdei_stack_normal_ptr := _free_sdei_stack st.sdei_stack_normal_ptr cpu,
          sdei_stack_critical_ptr := _free_sdei_stack st.sdei_stack_critical_ptr cpu }

/-- `_init_sdei_stack`: one call to `arch_alloc_vmap_stack`, modelled by
the allocation oracle `alloc` consulted at call number `k`; on `none`
(`NULL`) return the error flag (C's `-ENOMEM`), otherwise store the new
base address for `cpu`. -/
def _init_sdei_stack (alloc : Nat → Option Nat) (k : Nat)
    (ptr : Nat → Option Nat) (cpu : Nat) : (Nat → Option Nat) × Bool :=
  match alloc k with
  | none => (ptr, true)
  | some p => (fun c => if c = cpu then some p else ptr c, false)

/-- The `for_each_possible_cpu` loop body of `init_sdei_stacks`: allocate
the normal then the critical stack of each cpu in turn, breaking out on
the first failure.  `k` counts allocator calls made so far. -/
def init_sdei_stacks_loop (alloc : Nat → Option Nat) (k : Nat)
    (cpus : List Nat) (st : Arena) : Arena × Bool :=
  match cpus with
  | [] => (st, false)
  | cpu :: rest =>
      let rn := _init_sdei_stack alloc k st.sdei_stack_normal_ptr cpu
      if rn.2 then
        ({ st with sdei_stack_normal_ptr := rn.1 }, true)
      else
        let rc := _init_sdei_stack alloc (k + 1) st.sdei_stack_critical_ptr cpu
        if rc.2 then
          ({ sdei_stack_normal_ptr := rn.1, sdei_stack_critical_ptr := rc.1 }, true)
        else
          init_sdei_stacks_loop alloc (k + 2) rest
            { sdei_stack_normal_ptr := rn.1, sdei_stack_critical_ptr := rc.1 }

/-- `init_sdei_stacks`: run the allocation loop; if it broke out with an
error, roll back with `free_sdei_stacks` and return the error. -/
def init_sdei_stacks (alloc : Nat → Option Nat) (cpus : List Nat)
    (st : Arena) : Arena × Bool :=
  let r := init_sdei_stacks_loop alloc 0 cpus st
  if r.2 then (free_sdei_stacks cpus r.1, true) else (r.1, false)

/- ------------------------------------------------------------------ -/
/- Membership oracle: _on_sdei_stack                                   -/
/- ------------------------------------------------------------------ -/

/-- `_on_sdei_stack`: classify a stack-pointer value.  `vmap_stack` is
`IS_ENABLED(CONFIG_VMAP_STACK)`; `size` is `SDEI_STACK_SIZE`; `critical`
and `normal` are the invoking cpu's two per-CPU pointers as read by
`raw_cpu_read` (`none` = `NULL`, cast to the integer 0 as in the C cast
to `unsigned long`).  The additions wrap at the machine word as in C. -/
def _on_sdei_stack (vmap_stack : Bool) (size : Nat)
    (critical normal : Option Nat) (sp : Nat) : Bool :=
  if !vmap_stack then false
  else
    let low := critical.getD 0
    let high := (low + size) % U64
    if low ≤ sp ∧ sp < high then true
    else
      let low2 := normal.getD 0
      let high2 := (low2 + size) % U64
      decide (low2 ≤ sp ∧ sp < high2)

/- ------------------------------------------------------------------ -/
/- Event dispatcher: _sdei_handler                                     -/
/- ------------------------------------------------------------------ -/

/-- The number of leading general-purpose registers the firmware call
sequence clobbers (`clobbered_registers` in `_sdei_handler`). -/
def clobbered_registers : Nat := 4

/-- The environment the dispatcher reads: the sysreg values
(`CurrentEL`, `vbar_el1`, `elr_el1` at entry and when re-read after the
callback) and the two external collaborators.  `sdei_api_event_context i`
is the value the register-query collaborator supplies for register `i`
(modelled from the spec: its code is not part of the excerpt, and from
within the handler the call always succeeds).  `sdei_event_handler` is
the registered callback's outcome on the repaired context, `true` meaning
it reports failure (modelled from the spec: the callback is invoked with
the repaired context and reports success or failure; it does not mutate
the snapshot in this model). -/
structure DispatchEnv where
  currentEL : Nat
  vbar_el1 : Nat
  elr_el1_entry : Nat
  elr_el1_after : Nat
  sdei_api_event_context : Nat → Nat
  sdei_event_handler : PtRegs → Bool

/-- The repair step of `_sdei_handler`: the loop writing
`sdei_api_event_context(i, &regs->regs[i])` for the clobbered leading
registers. -/
def retrieve_missing_registers (api : Nat → Nat) (regs : PtRegs) : PtRegs :=
  { regs with regs := fun i => if i < clobbered_registers then api i else regs.regs i }

/-- What one dispatch produces: the disposition (the C return value under
the return-value contract), the interrupted-context snapshot as left by
the dispatcher, and whether the "exception during handler" warning was
logged. -/
structure DispatchResult where
  disposition : Disposition
  regs : PtRegs
  warned : Bool

/-- `_sdei_handler`: snapshot `elr_el1`, `CurrentEL | 1` (the kernel mode
with the dispatcher's own stack selection) and `vbar_el1`; repair the
clobbered registers; run the callback (the PAN-setting instruction has no
effect visible in this model); on callback failure return `SDEI_EV_FAILED`
at once; otherwise warn if `elr_el1` changed, then compute the disposition
from the saved mode bits and the saved IRQ-mask bit. -/
def _sdei_handler (env : DispatchEnv) (regs0 : PtRegs) : DispatchResult :=
  let elr := env.elr_el1_entry
  let kernel_mode := env.currentEL ||| 1
  let vbar := env.vbar_el1
  let regs := retrieve_missing_registers env.sdei_api_event_context regs0
  if env.sdei_event_handler regs then
    ⟨Disposition.failed, regs, false⟩
  else
    let warned := elr != env.elr_el1_after
    let mode := regs.pstate &&& (PSR_MODE32_BIT ||| PSR_MODE_MASK)
    if mode = kernel_mode ∧ ¬ interrupts_enabled regs then
      ⟨Disposition.handled, regs, warned⟩
    else if mode = kernel_mode then
      ⟨Disposition.redirect ((vbar + 0x280) % U64), regs, warned⟩
    else if mode &&& PSR_MODE32_BIT ≠ 0 then
      ⟨Disposition.redirect ((vbar + 0x680) % U64), regs, warned⟩
    else
      ⟨Disposition.redirect ((vbar + 0x480) % U64), regs, warned⟩

/- ------------------------------------------------------------------ -/
/- Reentrancy wrapper: __sdei_handler                                  -/
/- ------------------------------------------------------------------ -/

/-- What one wrapper invocation produces: the dispatch result, the state
of this cpu's NMI-context flag while the dispatcher ran, and its state
when the wrapper returns.  The flag models `in_nmi()` accounting
(modelled from the spec: `nmi_enter`/`nmi_exit`/`in_nmi` are external;
the spec describes them as flagging and unflagging the processor's
NMI-like-context state). -/
structure WrapperResult where
  result : DispatchResult
  nmi_during : Bool
  nmi_after : Bool

/-- `__sdei_handler`: if the cpu is not already `in_nmi()`, call
`nmi_enter` (flag it) and remember to `nmi_exit` (unflag) on the way out;
dispatch; then unflag iff this invocation flagged.  `in_nmi` is the
flag's state on entry. -/
def __sdei_handler (env : DispatchEnv) (regs : PtRegs) (in_nmi : Bool) :
    WrapperResult :=
  let do_nmi_exit := !in_nmi
  let during := if !in_nmi then true else in_nmi
  let r := _sdei_handler env regs
  let after := if do_nmi_exit then false else during
  ⟨r, during, after⟩

/- ------------------------------------------------------------------ -/
/- Entry point resolver: sdei_arch_get_entry_point                     -/
/- ------------------------------------------------------------------ -/

/-- The two mutually exclusive firmware conduits of the `conduit`
argument. -/
inductive Conduit where
  | hvc
  | smc
deriving DecidableEq

/-- Modelled from the spec: the recorded exit-mode value for the HVC
conduit (`SDEI_EXIT_HVC` of `asm/sdei.h`, outside the excerpt; only its
distinctness from `SDEI_EXIT_SMC` matters). -/
def SDEI_EXIT_HVC : Nat := 0

/-- Modelled from the spec: the recorded exit-mode value for the SMC
conduit (`SDEI_EXIT_SMC` of `asm/sdei.h`, outside the excerpt). -/
def SDEI_EXIT_SMC : Nat := 1

/-- The environment the resolver reads: the boot/privilege configuration
(`is_hyp_mode_available`, `is_kernel_in_hyp_mode`), whether
`CONFIG_VMAP_STACK` is enabled, the allocation oracle and possible-cpu
set for arming, and the address of the assembly trampoline
`__sdei_asm_handler`. -/
structure ResolverEnv where
  hyp_mode_available : Bool
  kernel_in_hyp_mode : Bool
  vmap_stack : Bool
  alloc : Nat → Option Nat
  cpus : List Nat
  sdei_asm_handler : Nat

/-- The process-wide mutable state the resolver touches: the stack arena
and the `sdei_exit_mode` variable. -/
structure GlobalState where
  arena : Arena
  sdei_exit_mode : Nat

/-- `sdei_arch_get_entry_point`: fail (return 0) if a higher exception
level exists but the kernel is not running in it; with
`CONFIG_VMAP_STACK`, arm the stacks and fail on arming failure; on
success record the conduit's exit mode and return the trampoline
address. -/
def sdei_arch_get_entry_point (env : ResolverEnv) (conduit : Conduit)
    (st : GlobalState) : Nat × GlobalState :=
  if env.hyp_mode_available && !env.kernel_in_hyp_mode then
    (0, st)
  else
    let r :=
      if env.vmap_stack then init_sdei_stacks env.alloc env.cpus st.arena
      else (st.arena, false)
    if r.2 then (0, { st with arena := r.1 })
    else
      (env.sdei_asm_handler,
       { arena := r.1,
         sdei_exit_mode :=
           if conduit = Conduit.hvc then SDEI_EXIT_HVC else SDEI_EXIT_SMC })

/- ------------------------------------------------------------------ -/
/- Helper lemmas                                                       -/
/- ------------------------------------------------------------------ -/

/-- Pointwise effect of freeing one cpu's stack: that cpu's pointer is
cleared, every other cpu's pointer is untouched. -/
theorem _free_sdei_stack_apply (ptr : Nat → Option Nat) (cpu c : Nat) :
    _free_sdei_stack ptr cpu c = if c = cpu then none else ptr c := by
  unfold _free_sdei_stack
  rcases h : ptr cpu with _ | p
  · show ptr c = _
    by_cases hc : c = cpu
    · subst hc; simp [h]
    · simp [hc]
  · rfl

/-- Pointwise effect of `free_sdei_stacks` on the normal pointers. -/
theorem free_sdei_stacks_normal_apply (cpus : List Nat) (st : Arena) (c : Nat) :
    (free_sdei_stacks cpus st).sdei_stack_normal_ptr c =
      if c ∈ cpus then none else st.sdei_stack_normal_ptr c := by
  induction cpus generalizing st with
  | nil => simp [free_sdei_stacks]
  | cons cpu rest ih =>
      rw [free_sdei_stacks, ih]
      by_cases h1 : c ∈ rest
      · simp [h1]
      · by_cases h2 : c = cpu <;> simp [h1, h2, _free_sdei_stack_apply]

/-- Pointwise effect of `free_sdei_stacks` on the critical pointers. -/
theorem free_sdei_stacks_critical_apply (cpus : List Nat) (st : Arena) (c : Nat) :
    (free_sdei_stacks cpus st).sdei_stack_critical_ptr c =
      if c ∈ cpus then none else st.sdei_stack_critical_ptr c := by
  induction cpus generalizing st with
  | nil => simp [free_sdei_stacks]
  | cons cpu rest ih =>
      rw [free_sdei_stacks, ih]
      by_cases h1 : c ∈ rest
      · simp [h1]
      · by_cases h2 : c = cpu <;> simp [h1, h2, _free_sdei_stack_apply]

/- ------------------------------------------------------------------ -/
/- Claims about the stack arena                                        -/
/- ------------------------------------------------------------------ -/

/-- Claim C8: `free_sdei_stacks` (disarm) is idempotent — running it
twice over the possible-cpu set leaves the same arena as running it
once; `_free_sdei_stack` on a cpu whose pointer is already `NULL` is a
no-op; and after disarm every region pointer of every possible processor
is `NULL`. -/
theorem free_sdei_stacks_idempotent (cpus : List Nat) (st : Arena) :
    free_sdei_stacks cpus (free_sdei_stacks cpus st) = free_sdei_stacks cpus st ∧
    (∀ (ptr : Nat → Option Nat) (cpu : Nat), ptr cpu = none →
      _free_sdei_stack ptr cpu = ptr) ∧
    ∀ c ∈ cpus,
      (free_sdei_stacks cpus st).sdei_stack_normal_ptr c = none ∧
      (free_sdei_stacks cpus st).sdei_stack_critical_ptr c = none := by
  refine ⟨?_, ?_, ?_⟩
  · have hn : (free_sdei_stacks cpus (free_sdei_stacks cpus st)).sdei_stack_normal_ptr =
        (free_sdei_stacks cpus st).sdei_stack_normal_ptr := by
      funext c
      rw [free_sdei_stacks_normal_apply, free_sdei_stacks_normal_apply]
      by_cases h : c ∈ cpus <;> simp [h]
    have hc : (free_sdei_stacks cpus (free_sdei_stacks cpus st)).sdei_stack_critical_ptr =
        (free_sdei_stacks cpus st).sdei_stack_critical_ptr := by
      funext c
      rw [free_sdei_stacks_critical_apply, free_sdei_stacks_critical_apply]
      by_cases h : c ∈ cpus <;> simp [h]
    cases hfst : free_sdei_stacks cpus (free_sdei_stacks cpus st)
    cases hsnd : free_sdei_stacks cpus st
    rw [hfst, hsnd] at hn hc
    simp_all
  · intro ptr cpu h
    unfold _free_sdei_stack
    rw [h]
  · intro c hc
    rw [free_sdei_stacks_normal_apply, free_sdei_stacks_critical_apply]
    simp [hc]

/-- Witness for C8 at a concrete arena and cpu set. -/
theorem free_sdei_stacks_idempotent_witness :
    _free_sdei_stack (fun _ => none) 0 = (fun _ => (none : Option Nat)) ∧
    (free_sdei_stacks [0, 1]
      { sdei_stack_normal_ptr := fun _ => some 0x1000,
        sdei_stack_critical_ptr := fun _ => some 0x2000 }).sdei_stack_normal_ptr 0 =
      none :=
  ⟨(free_sdei_stacks_idempotent [0]
      { sdei_stack_normal_ptr := fun _ => none,
        sdei_stack_critical_ptr := fun _ => none }).2.1 (fun _ => none) 0 rfl,
   ((free_sdei_stacks_idempotent [0, 1]
      { sdei_stack_normal_ptr := fun _ => some 0x1000,
        sdei_stack_critical_ptr := fun _ => some 0x2000 }).2.2 0 (by simp)).1⟩

/-- Claim C2: if arming fails (any single per-cpu allocation failed),
then after `init_sdei_stacks` returns its error, both region pointers of
every possible processor are `NULL` — nothing allocated in this arming
remains live. -/
theorem init_sdei_stacks_failure_rolls_back (alloc : Nat → Option Nat)
    (cpus : List Nat) (st : Arena)
    (h : (init_sdei_stacks alloc cpus st).2 = true) :
    ∀ c ∈ cpus,
      (init_sdei_stacks alloc cpus st).1.sdei_stack_normal_ptr c = none ∧
      (init_sdei_stacks alloc cpus st).1.sdei_stack_critical_ptr c = none := by
  intro c hc
  unfold init_sdei_stacks at h ⊢
  by_cases he : (init_sdei_stacks_loop alloc 0 cpus st).2 = true
  · simp only [he, if_true]
    rw [free_sdei_stacks_normal_apply, free_sdei_stacks_critical_apply]
    simp [hc]
  · simp [he] at h

/-- Witness for C2: a single-cpu set whose very first allocation fails. -/
theorem init_sdei_stacks_failure_rolls_back_witness :
    (init_sdei_stacks (fun _ => none) [0]
      { sdei_stack_normal_ptr := fun _ => none,
        sdei_stack_critical_ptr := fun _ => none }).2 = true ∧
    (init_sdei_stacks (fun _ => none) [0]
      { sdei_stack_normal_ptr := fun _ => none,
        sdei_stack_critical_ptr := fun _ => none }).1.sdei_stack_normal_ptr 0 =
      none :=
  ⟨rfl,
   (init_sdei_stacks_failure_rolls_back (fun _ => none) [0]
      { sdei_stack_normal_ptr := fun _ => none,
        sdei_stack_critical_ptr := fun _ => none } rfl 0 (by simp)).1⟩

/- ------------------------------------------------------------------ -/
/- Claims about the membership oracle                                  -/
/- ------------------------------------------------------------------ -/

/-- Claim C5: with stack isolation built in and both regions armed at
machine-representable addresses, `_on_sdei_stack` answers true exactly
when `sp` lies in the half-open range of the critical or of the normal
region; without `CONFIG_VMAP_STACK` it answers false for every input. -/
theorem on_sdei_stack_iff (size cb nb sp : Nat)
    (hc : cb + size < U64) (hn : nb + size < U64) :
    (_on_sdei_stack true size (some cb) (some nb) sp = true ↔
      (cb ≤ sp ∧ sp < cb + size) ∨ (nb ≤ sp ∧ sp < nb + size)) ∧
    ∀ (s : Nat) (crit norm : Option Nat) (p : Nat),
      _on_sdei_stack false s crit norm p = false := by
  constructor
  · unfold _on_sdei_stack
    simp only [Bool.not_true, Option.getD_some, Nat.mod_eq_of_lt hc,
      Nat.mod_eq_of_lt hn]
    by_cases h1 : cb ≤ sp ∧ sp < cb + size <;> simp [h1]
  · intro s crit norm p
    unfold _on_sdei_stack
    simp

/-- Witness for C5 at concrete armed regions and a concrete `sp` inside
the critical region. -/
theorem on_sdei_stack_iff_witness :
    _on_sdei_stack true 0x1000 (some 0x10000) (some 0x20000) 0x10008 = true :=
  (on_sdei_stack_iff 0x1000 0x10000 0x20000 0x10008 (by decide)
    (by decide)).1.mpr (Or.inl (by decide))

/-- Claim C9: with stack isolation built in but the invoking cpu's
regions not armed (`NULL` pointers), the `NULL` base is treated as
address 0, so the membership test answers true for every `sp` strictly
below the stack size. -/
theorem on_sdei_stack_null_base (size sp : Nat) (hs : size < U64)
    (h : sp < size) :
    _on_sdei_stack true size none none sp = true := by
  unfold _on_sdei_stack
  simp only [Bool.not_true, Option.getD_none, Nat.zero_add,
    Nat.mod_eq_of_lt hs]
  simp [h]

/-- Witness for C9: an unarmed cpu misclassifies the low address 8. -/
theorem on_sdei_stack_null_base_witness :
    _on_sdei_stack true 0x1000 none none 8 = true :=
  on_sdei_stack_null_base 0x1000 8 (by decide) (by decide)

/- ------------------------------------------------------------------ -/
/- Claims about the dispatcher                                         -/
/- ------------------------------------------------------------------ -/

/-- The disposition as a function of the values saved from the
interrupted context (`CurrentEL | 1`, `vbar_el1`, and the pre-mutation
`pstate`): the case analysis of `_sdei_handler` lines 187-209. -/
def disposition_of_saved (kernel_mode vbar pstate : Nat) : Disposition :=
  let mode := pstate &&& (PSR_MODE32_BIT ||| PSR_MODE_MASK)
  if mode = kernel_mode ∧ pstate &&& PSR_I_BIT ≠ 0 then
    Disposition.handled
  else if mode = kernel_mode then
    Disposition.redirect ((vbar + 0x280) % U64)
  else if mode &&& PSR_MODE32_BIT ≠ 0 then
    Disposition.redirect ((vbar + 0x680) % U64)
  else
    Disposition.redirect ((vbar + 0x480) % U64)

/-- Shared success-path lemma: when the callback reports success, one
dispatch is exactly the saved-value case analysis, the repaired
snapshot, and the warning comparison of the entry `elr_el1` with the
re-read one. -/
theorem sdei_handler_success_eq (env : DispatchEnv) (regs0 : PtRegs)
    (h : env.sdei_event_handler
      (retrieve_missing_registers env.sdei_api_event_context regs0) = false) :
    _sdei_handler env regs0 =
      { disposition :=
          disposition_of_saved (env.currentEL ||| 1) env.vbar_el1 regs0.pstate,
        regs := retrieve_missing_registers env.sdei_api_event_context regs0,
        warned := env.elr_el1_entry != env.elr_el1_after } := by
  have hp : (retrieve_missing_registers env.sdei_api_event_context regs0).pstate =
      regs0.pstate := rfl
  unfold _sdei_handler disposition_of_saved
  rw [if_neg (by simp [h])]
  simp only [interrupts_enabled, hp]
  by_cases h1 : regs0.pstate &&& (PSR_MODE32_BIT ||| PSR_MODE_MASK) =
      env.currentEL ||| 1 <;>
  by_cases h2 : regs0.pstate &&& PSR_I_BIT = 0 <;>
  by_cases h3 : (regs0.pstate &&& (PSR_MODE32_BIT ||| PSR_MODE_MASK)) &&&
      PSR_MODE32_BIT = 0 <;>
  simp [h1, h2, h3]

/-- Claim C1: when the callback succeeds, the disposition is exactly
this case analysis on the saved mode bits and the saved IRQ-mask bit:
kernel mode (with the dispatcher's stack selection) and interrupts
masked gives `handled`; that kernel mode with interrupts enabled
redirects to `vbar + 0x280`; a 32-bit saved mode redirects to
`vbar + 0x680`; otherwise (64-bit user) to `vbar + 0x480`. -/
theorem sdei_handler_disposition_cases (env : DispatchEnv) (regs0 : PtRegs)
    (h : env.sdei_event_handler
      (retrieve_missing_registers env.sdei_api_event_context regs0) = false) :
    (_sdei_handler env regs0).disposition =
      (if regs0.pstate &&& (PSR_MODE32_BIT ||| PSR_MODE_MASK) =
            env.currentEL ||| 1 ∧ interrupts_enabled regs0 = false then
        Disposition.handled
      else if regs0.pstate &&& (PSR_MODE32_BIT ||| PSR_MODE_MASK) =
            env.currentEL ||| 1 then
        Disposition.redirect ((env.vbar_el1 + 0x280) % U64)
      else if (regs0.pstate &&& (PSR_MODE32_BIT ||| PSR_MODE_MASK)) &&&
            PSR_MODE32_BIT ≠ 0 then
        Disposition.redirect ((env.vbar_el1 + 0x680) % U64)
      else
        Disposition.redirect ((env.vbar_el1 + 0x480) % U64)) := by
  rw [sdei_handler_success_eq env regs0 h]
  unfold disposition_of_saved interrupts_enabled
  by_cases h2 : regs0.pstate &&& PSR_I_BIT = 0 <;> simp [h2]

/-- Witness for C1: an interrupted kernel context (`CurrentEL` = EL1,
saved mode = kernel mode, IRQs masked) dispatches to `handled`. -/
theorem sdei_handler_disposition_cases_witness :
    (_sdei_handler
      { currentEL := 0x4, vbar_el1 := 0x8000, elr_el1_entry := 0x100,
        elr_el1_after := 0x100, sdei_api_event_context := fun _ => 0,
        sdei_event_handler := fun _ => false }
      { regs := fun _ => 0, pstate := 0x85 }).disposition =
      Disposition.handled := by
  rw [sdei_handler_disposition_cases
    { currentEL := 0x4, vbar_el1 := 0x8000, elr_el1_entry := 0x100,
      elr_el1_after := 0x100, sdei_api_event_context := fun _ => 0,
      sdei_event_handler := fun _ => false }
    { regs := fun _ => 0, pstate := 0x85 } rfl]
  decide

/-- Claim C4: when the callback reports failure, dispatch returns
`failed` at once, and the snapshot's registers 0-3 hold exactly the
values the register-query collaborator supplied in the repair step. -/
theorem sdei_handler_failed_path (env : DispatchEnv) (regs0 : PtRegs)
    (h : env.sdei_event_handler
      (retrieve_missing_registers env.sdei_api_event_context regs0) = true) :
    (_sdei_handler env regs0).disposition = Disposition.failed ∧
    ∀ i, i < clobbered_registers →
      (_sdei_handler env regs0).regs.regs i = env.sdei_api_event_context i := by
  unfold _sdei_handler
  rw [if_pos h]
  exact ⟨rfl, fun i hi => by simp [retrieve_missing_registers, hi]⟩

/-- Witness for C4: a callback that always fails yields `failed`, with
register 2 holding the collaborator's value 42. -/
theorem sdei_handler_failed_path_witness :
    (_sdei_handler
      { currentEL := 0x4, vbar_el1 := 0x8000, elr_el1_entry := 0x100,
        elr_el1_after := 0x100, sdei_api_event_context := fun i => 40 + i,
        sdei_event_handler := fun _ => true }
      { regs := fun _ => 0, pstate := 0x85 }).disposition =
        Disposition.failed ∧
    (_sdei_handler
      { currentEL := 0x4, vbar_el1 := 0x8000, elr_el1_entry := 0x100,
        elr_el1_after := 0x100, sdei_api_event_context := fun i => 40 + i,
        sdei_event_handler := fun _ => true }
      { regs := fun _ => 0, pstate := 0x85 }).regs.regs 2 = 42 :=
  ⟨(sdei_handler_failed_path
      { currentEL := 0x4, vbar_el1 := 0x8000, elr_el1_entry := 0x100,
        elr_el1_after := 0x100, sdei_api_event_context := fun i => 40 + i,
        sdei_event_handler := fun _ => true }
      { regs := fun _ => 0, pstate := 0x85 } rfl).1,
   (sdei_handler_failed_path
      { currentEL := 0x4, vbar_el1 := 0x8000, elr_el1_entry := 0x100,
        elr_el1_after := 0x100, sdei_api_event_context := fun i => 40 + i,
        sdei_event_handler := fun _ => true }
      { regs := fun _ => 0, pstate := 0x85 } rfl).2 2 (by decide)⟩

/-- Claim C6: on the success path the disposition is a function of the
values saved from the interrupted context before any mutation — the
entry `pstate` (the dispatcher's own writes touch only registers 0-3,
never `pstate`) together with the entry-time `CurrentEL | 1` and
`vbar_el1` — and the warning comparison uses the exception-return
address captured at entry, before the repair and the callback. -/
theorem sdei_handler_uses_saved_values (env : DispatchEnv) (regs0 : PtRegs)
    (h : env.sdei_event_handler
      (retrieve_missing_registers env.sdei_api_event_context regs0) = false) :
    (_sdei_handler env regs0).disposition =
      disposition_of_saved (env.currentEL ||| 1) env.vbar_el1 regs0.pstate ∧
    (_sdei_handler env regs0).warned =
      (env.elr_el1_entry != env.elr_el1_after) := by
  rw [sdei_handler_success_eq env regs0 h]
  exact ⟨rfl, rfl⟩

/-- Witness for C6: a 64-bit user context (saved mode 0) dispatches to
the 64-bit vector offset computed from the pre-mutation saved state. -/
theorem sdei_handler_uses_saved_values_witness :
    (_sdei_handler
      { currentEL := 0x4, vbar_el1 := 0x8000, elr_el1_entry := 0x100,
        elr_el1_after := 0x200, sdei_api_event_context := fun _ => 7,
        sdei_event_handler := fun _ => false }
      { regs := fun _ => 0, pstate := 0 }).disposition =
      disposition_of_saved 0x5 0x8000 0 :=
  (sdei_handler_uses_saved_values
    { currentEL := 0x4, vbar_el1 := 0x8000, elr_el1_entry := 0x100,
      elr_el1_after := 0x200, sdei_api_event_context := fun _ => 7,
      sdei_event_handler := fun _ => false }
    { regs := fun _ => 0, pstate := 0 } rfl).1

/- ------------------------------------------------------------------ -/
/- Claim about the reentrancy wrapper                                  -/
/- ------------------------------------------------------------------ -/

/-- Claim C3: invoked while the cpu is already flagged as NMI context,
the wrapper neither re-flags nor unflags (the flag is `true` throughout
and `true` on return) and still returns the dispatcher's result;
invoked while not flagged, it flags the cpu for the duration of the
dispatch and unflags it on return — for every environment and snapshot,
hence on every disposition path including `failed`. -/
theorem sdei_wrapper_reentrancy (env : DispatchEnv) (regs : PtRegs) :
    __sdei_handler env regs true =
      { result := _sdei_handler env regs, nmi_during := true,
        nmi_after := true } ∧
    __sdei_handler env regs false =
      { result := _sdei_handler env regs, nmi_during := true,
        nmi_after := false } :=
  ⟨rfl, rfl⟩

/- ------------------------------------------------------------------ -/
/- Claims about the entry point resolver                               -/
/- ------------------------------------------------------------------ -/

/-- Claim C7: if a higher exception level is available but the kernel is
not running in it, resolution fails — the null entry address 0 is
returned and the process-wide state is untouched, so no entry point is
published. -/
theorem sdei_arch_get_entry_point_hyp_unsupported (env : ResolverEnv)
    (conduit : Conduit) (st : GlobalState)
    (h1 : env.hyp_mode_available = true) (h2 : env.kernel_in_hyp_mode = false) :
    sdei_arch_get_entry_point env conduit st = (0, st) := by
  unfold sdei_arch_get_entry_point
  rw [if_pos (by simp [h1, h2])]

/-- Witness for C7 at a concrete configuration booted at EL1 under a
hypervisor. -/
theorem sdei_arch_get_entry_point_hyp_unsupported_witness :
    sdei_arch_get_entry_point
      { hyp_mode_available := true, kernel_in_hyp_mode := false,
        vmap_stack := true, alloc := fun k => some (0x1000 * (k + 1)),
        cpus := [0], sdei_asm_handler := 0xffff0000 }
      Conduit.smc
      { arena := { sdei_stack_normal_ptr := fun _ => none,
                   sdei_stack_critical_ptr := fun _ => none },
        sdei_exit_mode := 0 } =
      (0, { arena := { sdei_stack_normal_ptr := fun _ => none,
                       sdei_stack_critical_ptr := fun _ => none },
            sdei_exit_mode := 0 }) :=
  sdei_arch_get_entry_point_hyp_unsupported
    { hyp_mode_available := true, kernel_in_hyp_mode := false,
      vmap_stack := true, alloc := fun k => some (0x1000 * (k + 1)),
      cpus := [0], sdei_asm_handler := 0xffff0000 }
    Conduit.smc
    { arena := { sdei_stack_normal_ptr := fun _ => none,
                 sdei_stack_critical_ptr := fun _ => none },
      sdei_exit_mode := 0 } rfl rfl

/-- Claim C10: on either failure path (privilege-level mismatch, or
arming failure under `CONFIG_VMAP_STACK`) the resolver leaves
`sdei_exit_mode` at its prior value; the conduit is recorded only on the
successful path, where the exit mode becomes the value matching the
conduit. -/
theorem sdei_exit_mode_frame (env : ResolverEnv) (conduit : Conduit)
    (st : GlobalState) :
    ((env.hyp_mode_available = true ∧ env.kernel_in_hyp_mode = false) ∨
        (env.vmap_stack = true ∧
          (init_sdei_stacks env.alloc env.cpus st.arena).2 = true) →
      (sdei_arch_get_entry_point env conduit st).2.sdei_exit_mode =
        st.sdei_exit_mode) ∧
    (¬(env.hyp_mode_available = true ∧ env.kernel_in_hyp_mode = false) →
      (env.vmap_stack = true →
        (init_sdei_stacks env.alloc env.cpus st.arena).2 = false) →
      (sdei_arch_get_entry_point env conduit st).2.sdei_exit_mode =
        (if conduit = Conduit.hvc then SDEI_EXIT_HVC else SDEI_EXIT_SMC)) := by
  unfold sdei_arch_get_entry_point
  by_cases hh : env.hyp_mode_available = true ∧ env.kernel_in_hyp_mode = false
  · rw [if_pos (by simp [hh.1, hh.2])]
    exact ⟨fun _ => rfl, fun hcon _ => absurd hh hcon⟩
  · rw [if_neg (by
      intro hb
      exact hh (by simpa [Bool.and_eq_true, Bool.not_eq_true'] using hb))]
    by_cases hv : env.vmap_stack = true
    · simp only [hv, if_true]
      constructor
      · intro hor
        rcases hor with hl | hr
        · exact absurd hl hh
        · rw [if_pos hr.2]
      · intro _ hinit
        rw [if_neg (by simp [hinit trivial])]
    · simp only [Bool.not_eq_true] at hv
      simp only [hv, Bool.false_eq_true, if_false]
      constructor
      · intro hor
        rcases hor with hl | hr
        · exact absurd hl hh
        · exact hr.1.elim
      · intro _ _
        trivial

/-- Witness for C10: both a failed resolution leaving the prior exit
mode 7 in place, and a successful one recording the SMC exit mode. -/
theorem sdei_exit_mode_frame_witness :
    (sdei_arch_get_entry_point
      { hyp_mode_available := true, kernel_in_hyp_mode := false,
        vmap_stack := false, alloc := fun _ => none, cpus := [0],
        sdei_asm_handler := 0xffff0000 }
      Conduit.smc
      { arena := { sdei_stack_normal_ptr := fun _ => none,
                   sdei_stack_critical_ptr := fun _ => none },
        sdei_exit_mode := 7 }).2.sdei_exit_mode = 7 ∧
    (sdei_arch_get_entry_point
      { hyp_mode_available := false, kernel_in_hyp_mode := false,
        vmap_stack := false, alloc := fun _ => none, cpus := [0],
        sdei_asm_handler := 0xffff0000 }
      Conduit.smc
      { arena := { sdei_stack_normal_ptr := fun _ => none,
                   sdei_stack_critical_ptr := fun _ => none },
        sdei_exit_mode := 7 }).2.sdei_exit_mode = SDEI_EXIT_SMC :=
  ⟨(sdei_exit_mode_frame
      { hyp_mode_available := true, kernel_in_hyp_mode := false,
        vmap_stack := false, alloc := fun _ => none, cpus := [0],
        sdei_asm_handler := 0xffff0000 }
      Conduit.smc
      { arena := { sdei_stack_normal_ptr := fun _ => none,
                   sdei_stack_critical_ptr := fun _ => none },
        sdei_exit_mode := 7 }).1 (Or.inl ⟨rfl, rfl⟩),
   by
    have h := (sdei_exit_mode_frame
      { hyp_mode_available := false, kernel_in_hyp_mode := false,
        vmap_stack := false, alloc := fun _ => none, cpus := [0],
        sdei_asm_handler := 0xffff0000 }
      Conduit.smc
      { arena := { sdei_stack_normal_ptr := fun _ => none,
                   sdei_stack_critical_ptr := fun _ => none },
        sdei_exit_mode := 7 }).2 (by simp) (by intro hb; cases hb)
    simpa using h⟩

end Sdei
